import Mathlib

/-!
Verification of the token-issuance/verification core of the OverboardTodosApp
repository (FastAPI todo application). The definitions below are a shallow
embedding of `src/app/utils/auth_utils.py` and `src/app/routers/auth.py`:

* times are integer seconds (`Nat`); `datetime.now() + timedelta(...)` becomes
  `now + delta` with `delta` in seconds (30 minutes = 1800 s, 7 days = 604800 s);
* a signed JWT is modelled as its decoded claim set together with the key that
  signed it (the signature is a function of key and payload, so this pair is
  a faithful abstraction of the encoded string);
* the database handle is a list of user rows threaded through each handler;
  handlers return the (possibly updated) list together with either an
  `HTTPException` (a Python `raise`) or their response value;
* the bcrypt comparison performed by the external passlib library is passed in
  as a function parameter.
-/

namespace Overboard

/-- A row of the `users` table (`src/app/models.py`, class `Users`),
restricted to its column fields. -/
structure Users where
  id : Int
  email : String
  username : String
  first_name : String
  last_name : String
  hashed_password : String
  is_active : Bool
  role : String
  phone_number : Option String := none
  deriving Repr, DecidableEq

/-- The process-wide signing secret (`settings.SECRET_KEY`). Its concrete
value is configuration, not code; only its identity across issuance and
verification matters to the model. -/
def SECRET_KEY : String := "process-secret"

/-- The decoded claim set of a JWT, restricted to the claims the auth code
reads or writes: `sub`, `id`, `role`, `token_type`, `exp`. -/
structure Payload where
  sub : Option String := none
  id : Option Int := none
  role : Option String := none
  token_type : Option String := none
  exp : Nat
  deriving Repr, DecidableEq

/-- A signed token: its claims plus the key it was signed with. -/
structure Jwt where
  payload : Payload
  key : String
  deriving Repr, DecidableEq

/-- Errors raised by the `jose` decoder and caught as `JWTError` by the
repository code. -/
inductive JWTError where
  | invalidSignature
  | expired
  deriving Repr, DecidableEq

/-- A FastAPI `HTTPException(status_code, detail)`. -/
structure HTTPException where
  status_code : Nat
  detail : String
  deriving Repr, DecidableEq

/-- Modelled from the spec: `jwt.decode(token, key, algorithms=["HS256"])` is
performed by the external `jose` library, whose code is not part of this
repository. Per the spec, decode "fails with an invalid-signature kind if
tampered or signed with a different key" and a token issued with ttl T is
"rejected at or after `issued_at + T`", i.e. a token is expired once
`exp ≤ now`; on success the embedded claims are returned. -/
def jwt_decode (token : Jwt) (key : String) (now : Nat) : Except JWTError Payload :=
  if token.key ≠ key then .error .invalidSignature
  else if token.payload.exp ≤ now then .error .expired
  else .ok token.payload

/-- `create_access_token` (`src/app/utils/auth_utils.py`, lines 32-43):
embeds `sub`, `id`, `role`, `token_type="access"` and
`exp = now + expires_delta`, signed with the process secret. -/
def create_access_token (username : String) (user_id : Int) (role : String)
    (expires_delta : Nat) (now : Nat) : Jwt :=
  { payload :=
      { sub := some username
        id := some user_id
        role := some role
        token_type := some "access"
        exp := now + expires_delta }
    key := SECRET_KEY }

/-- `create_refresh_token` (`src/app/utils/auth_utils.py`, lines 46-54):
embeds `sub`, `id`, `token_type="refresh"` (no role) and
`exp = now + 7 days`, signed with the process secret. -/
def create_refresh_token (username : String) (user_id : Int) (now : Nat) : Jwt :=
  { payload :=
      { sub := some username
        id := some user_id
        role := none
        token_type := some "refresh"
        exp := now + 604800 }
    key := SECRET_KEY }

/-- The dictionary returned by `verify_refresh_token`. -/
structure RefreshTokenData where
  username : String
  id : Int
  deriving Repr, DecidableEq

/-- `verify_refresh_token` (`src/app/utils/auth_utils.py`, lines 57-83):
decode with the process secret; a `JWTError` becomes a 401
"Could not validate refresh token."; a `token_type` other than `"refresh"`
a 401 "Invalid token type."; a missing `sub` or `id` a 401
"Could not validate credentials."; otherwise the username and id are
returned. -/
def verify_refresh_token (token : Jwt) (now : Nat) :
    Except HTTPException RefreshTokenData :=
  match jwt_decode token SECRET_KEY now with
  | .error _ =>
      .error { status_code := 401, detail := "Could not validate refresh token." }
  | .ok payload =>
      if payload.token_type ≠ some "refresh" then
        .error { status_code := 401, detail := "Invalid token type." }
      else
        match payload.sub, payload.id with
        | some username, some user_id =>
            .ok { username := username, id := user_id }
        | _, _ =>
            .error { status_code := 401, detail := "Could not validate credentials." }

/-- The dictionary returned by `get_current_user`. -/
structure CurrentUser where
  username : String
  id : Int
  user_role : Option String
  deriving Repr, DecidableEq

/-- `get_current_user` (`src/app/utils/auth_utils.py`, lines 86-107):
decode with the process secret; a `JWTError` becomes a 401
"Could not validate user."; a missing `sub` or `id` a 401
"Could not validate credentials."; otherwise username, id and the
(possibly absent) role are returned. No `token_type` check is performed. -/
def get_current_user (token : Jwt) (now : Nat) :
    Except HTTPException CurrentUser :=
  match jwt_decode token SECRET_KEY now with
  | .error _ =>
      .error { status_code := 401, detail := "Could not validate user." }
  | .ok payload =>
      match payload.sub, payload.id with
      | some username, some user_id =>
          .ok { username := username, id := user_id, user_role := payload.role }
      | _, _ =>
          .error { status_code := 401, detail := "Could not validate credentials." }

/-- `db.query(Users).filter(Users.username == username).first()`. -/
def firstUserByUsername (db : List Users) (username : String) : Option Users :=
  db.find? (fun u => u.username == username)

/-- `db.query(Users).filter(Users.id == user_id).first()`. -/
def firstUserById (db : List Users) (user_id : Int) : Option Users :=
  db.find? (fun u => u.id == user_id)

/-- `db.query(Users).filter(Users.email == email).first()`. -/
def firstUserByEmail (db : List Users) (email : String) : Option Users :=
  db.find? (fun u => u.email == email)

/-- `authenticate_user` (`src/app/utils/auth_utils.py`, lines 23-29): look the
user up by username; return `None` if absent; return `None` if the bcrypt
comparison fails; otherwise return the user row. `verify` stands for
`bcrypt_context.verify` of the external passlib library. -/
def authenticate_user (verify : String → String → Bool)
    (username password : String) (db : List Users) : Option Users :=
  match firstUserByUsername db username with
  | none => none
  | some user =>
      if ¬ verify password user.hashed_password then none
      else some user

/-- The `Token` response model of `src/app/routers/auth.py`, with the two
tokens kept in decoded form. -/
structure TokenResponse where
  access_token : Jwt
  refresh_token : Jwt
  token_type : String
  deriving Repr, DecidableEq

/-- `login_for_access_token` (`src/app/routers/auth.py`, lines 65-92):
authenticate; on failure raise 401 "Could not validate credentials.";
otherwise mint an access token with a 30-minute expiry and a refresh token,
both for the authenticated row. The handler performs no database write, so
the database is returned unchanged on every path. -/
def login_for_access_token (verify : String → String → Bool)
    (username password : String) (db : List Users) (now : Nat) :
    List Users × Except HTTPException TokenResponse :=
  match authenticate_user verify username password db with
  | none =>
      (db, .error { status_code := 401, detail := "Could not validate credentials." })
  | some user =>
      (db, .ok
        { access_token := create_access_token user.username user.id user.role 1800 now
          refresh_token := create_refresh_token user.username user.id now
          token_type := "bearer" })

/-- `refresh_access_token` (`src/app/routers/auth.py`, lines 95-121): verify
the presented refresh token; look the user up by the embedded id, raising
401 "Could not validate credentials." if absent; otherwise mint a fresh
access token (30-minute expiry) and refresh token from the stored row. No
database write on any path. -/
def refresh_access_token (refresh_token : Jwt) (db : List Users) (now : Nat) :
    List Users × Except HTTPException TokenResponse :=
  match verify_refresh_token refresh_token now with
  | .error e => (db, .error e)
  | .ok token_data =>
      match firstUserById db token_data.id with
      | none =>
          (db, .error { status_code := 401, detail := "Could not validate credentials." })
      | some user =>
          (db, .ok
            { access_token := create_access_token user.username user.id user.role 1800 now
              refresh_token := create_refresh_token user.username user.id now
              token_type := "bearer" })

/-- The fields of the Google token-exchange response that the callback reads:
its HTTP status and `tokens.get("access_token")`. -/
structure TokenExchangeResponse where
  status_code : Nat
  access_token : Option String
  deriving Repr, DecidableEq

/-- The fields of the Google userinfo response that the callback reads: its
HTTP status, `user_info["email"]` (a required key) and the optional
`given_name` / `family_name`. -/
structure UserinfoResponse where
  status_code : Nat
  email : String
  given_name : Option String := none
  family_name : Option String := none
  deriving Repr, DecidableEq

/-- One `response.set_cookie(...)` call. -/
structure Cookie where
  key : String
  value : Jwt
  httponly : Bool
  samesite : String
  max_age : Nat
  deriving Repr, DecidableEq

/-- The redirect returned by the Google callback, with its two cookies. -/
structure CallbackResponse where
  access_cookie : Cookie
  refresh_cookie : Cookie
  deriving Repr, DecidableEq

/-- `user_info["email"].split("@")[0]`: the text before the first `@`
(the whole string when there is none). -/
def emailLocalPart (email : String) : String :=
  email.takeWhile (fun c => c ≠ '@')

/-- `google_callback` (`src/app/routers/auth.py`, lines 138-220). The two
provider responses are inputs (the outbound HTTP calls are the external
collaborator); `hex_suffix` stands for `secrets.token_hex(4)` and `new_id`
for the id the database assigns on insert. A non-200 status on either leg
raises a 400 before any database access. Otherwise the user is looked up by
the provider email; if absent, a row with a derived unique username, empty
password hash and role `"user"` is inserted. Tokens for the row are then set
as http-only, lax same-site cookies with max-age 1800 s and 604800 s. -/
def google_callback (token_response : TokenExchangeResponse)
    (userinfo_response : UserinfoResponse) (db : List Users)
    (hex_suffix : String) (new_id : Int) (now : Nat) :
    List Users × Except HTTPException CallbackResponse :=
  if token_response.status_code ≠ 200 then
    (db, .error { status_code := 400
                  detail := "Failed to obtain access token from Google." })
  else if userinfo_response.status_code ≠ 200 then
    (db, .error { status_code := 400
                  detail := "Failed to obtain user info from Google." })
  else
    let (db2, user) :=
      match firstUserByEmail db userinfo_response.email with
      | some u => (db, u)
      | none =>
          let google_username := emailLocalPart userinfo_response.email
          let unique_username := google_username ++ "_" ++ hex_suffix
          let newUser : Users :=
            { id := new_id
              email := userinfo_response.email
              username := unique_username
              first_name := userinfo_response.given_name.getD ""
              last_name := userinfo_response.family_name.getD ""
              hashed_password := ""
              is_active := true
              role := "user" }
          (db ++ [newUser], newUser)
    let access_token := create_access_token user.username user.id user.role 1800 now
    let refresh_token := create_refresh_token user.username user.id now
    (db2, .ok
      { access_cookie :=
          { key := "access_token", value := access_token
            httponly := true, samesite := "lax", max_age := 1800 }
        refresh_cookie :=
          { key := "refresh_token", value := refresh_token
            httponly := true, samesite := "lax", max_age := 604800 } })

/-- A sample stored user row for concrete instantiations. -/
def sampleAdmin : Users :=
  { id := 1
    email := "alice@example.com"
    username := "alice"
    first_name := "Alice"
    last_name := "Liddell"
    hashed_password := "pw"
    is_active := true
    role := "admin" }

/-- C1 counterexample: a refresh token signed with the process secret,
carrying `token_type = "refresh"` and well inside its validity window, is
ACCEPTED by `get_current_user` (which performs no token-type check), contrary
to the claim that it is rejected with an authentication failure. -/
theorem C1_counterexample :
    (create_refresh_token "alice" 1 0).payload.token_type = some "refresh" ∧
    10 < (create_refresh_token "alice" 1 0).payload.exp ∧
    get_current_user (create_refresh_token "alice" 1 0) 10 =
      .ok { username := "alice", id := 1, user_role := none } := by
  refine ⟨rfl, by decide, rfl⟩

/-- C1 (amended): for every decoded, unexpired token whose `token_type` claim
is `"access"`, `verify_refresh_token` rejects it with a 401 "Invalid token
type."; but `get_current_user` performs no token-type check, so an unexpired
refresh token carrying `sub` and `id` is accepted by it. -/
theorem C1_amended_type_discrimination
    (p : Payload) (now : Nat) (username : String) (user_id : Int) (t0 tnow : Nat)
    (hexp : now < p.exp) (htype : p.token_type = some "access")
    (hfresh : tnow < t0 + 604800) :
    verify_refresh_token { payload := p, key := SECRET_KEY } now =
      .error { status_code := 401, detail := "Invalid token type." } ∧
    get_current_user (create_refresh_token username user_id t0) tnow =
      .ok { username := username, id := user_id, user_role := none } := by
  constructor
  · simp [verify_refresh_token, jwt_decode, Nat.not_le.mpr hexp, htype]
  · simp [get_current_user, jwt_decode, create_refresh_token, Nat.not_le.mpr hfresh]

/-- C1 amended, at a concrete input: an access token presented to
`verify_refresh_token` and a refresh token presented to `get_current_user`. -/
theorem C1_amended_witness :
    verify_refresh_token
        { payload := { sub := some "alice", id := some 1, role := some "admin",
                       token_type := some "access", exp := 100 },
          key := SECRET_KEY } 50 =
      .error { status_code := 401, detail := "Invalid token type." } ∧
    get_current_user (create_refresh_token "alice" 1 0) 10 =
      .ok { username := "alice", id := 1, user_role := none } :=
  C1_amended_type_discrimination
    { sub := some "alice", id := some 1, role := some "admin",
      token_type := some "access", exp := 100 }
    50 "alice" 1 0 10 (by decide) rfl (by decide)

/-- C2: an access token minted by `create_access_token` with expiry delta T at
time t0 is accepted by verification (decode with the same secret, as performed
by `get_current_user`) at every time strictly before t0 + T, returning its
claims, and rejected with a 401 at every time at or after t0 + T. -/
theorem C2_access_token_expiry_window (username : String) (user_id : Int)
    (role : String) (T t0 t : Nat) :
    (t < t0 + T →
      get_current_user (create_access_token username user_id role T t0) t =
        .ok { username := username, id := user_id, user_role := some role }) ∧
    (t0 + T ≤ t →
      get_current_user (create_access_token username user_id role T t0) t =
        .error { status_code := 401, detail := "Could not validate user." }) := by
  constructor <;> intro h
  · simp [get_current_user, jwt_decode, create_access_token, Nat.not_le.mpr h]
  · simp [get_current_user, jwt_decode, create_access_token, h]

/-- C2 at a concrete input: a token with a 1800-second ttl issued at time 1000
is accepted at 2799 and rejected at 2800. -/
theorem C2_witness :
    get_current_user (create_access_token "alice" 1 "admin" 1800 1000) 2799 =
      .ok { username := "alice", id := 1, user_role := some "admin" } ∧
    get_current_user (create_access_token "alice" 1 "admin" 1800 1000) 2800 =
      .error { status_code := 401, detail := "Could not validate user." } :=
  ⟨(C2_access_token_expiry_window "alice" 1 "admin" 1800 1000 2799).1 (by decide),
   (C2_access_token_expiry_window "alice" 1 "admin" 1800 1000 2800).2 (by decide)⟩

/-- C3: when the username lookup finds a row and the bcrypt comparison
succeeds, `authenticate_user` returns that row; when the username is unknown
it returns `none`, and when the password comparison fails it returns the very
same value `none` — the two failure results are identical, so they are
indistinguishable to the caller. -/
theorem C3_authenticate_user_uniform_failure
    (verify : String → String → Bool) (db : List Users)
    (username password : String) :
    (∀ user : Users, firstUserByUsername db username = some user →
        verify password user.hashed_password = true →
        authenticate_user verify username password db = some user) ∧
    (firstUserByUsername db username = none →
        authenticate_user verify username password db = none) ∧
    (∀ user : Users, firstUserByUsername db username = some user →
        verify password user.hashed_password = false →
        authenticate_user verify username password db = none) := by
  refine ⟨?_, ?_, ?_⟩
  · intro user hfind hok
    simp [authenticate_user, hfind, hok]
  · intro hfind
    simp [authenticate_user, hfind]
  · intro user hfind hbad
    simp [authenticate_user, hfind, hbad]

/-- C3 at concrete inputs: with string equality standing in for the bcrypt
comparator, the stored row is returned on a match, and the unknown-username
and wrong-password failures are both the literal value `none`. -/
theorem C3_witness :
    authenticate_user (fun p h => p == h) "alice" "pw" [sampleAdmin] =
      some sampleAdmin ∧
    authenticate_user (fun p h => p == h) "bob" "pw" [sampleAdmin] = none ∧
    authenticate_user (fun p h => p == h) "alice" "wrong" [sampleAdmin] = none :=
  ⟨(C3_authenticate_user_uniform_failure (fun p h => p == h) [sampleAdmin]
      "alice" "pw").1 sampleAdmin (by decide) (by decide),
   (C3_authenticate_user_uniform_failure (fun p h => p == h) [sampleAdmin]
      "bob" "pw").2.1 (by decide),
   (C3_authenticate_user_uniform_failure (fun p h => p == h) [sampleAdmin]
      "alice" "wrong").2.2 sampleAdmin (by decide) (by decide)⟩

/-- C4: decoding an access token minted by `create_access_token` with the same
secret, before expiry, yields exactly the embedded claims: `sub` is the given
username, `id` the given user id with no coercion, `role` the given role; and
`get_current_user` returns exactly those three fields. -/
theorem C4_roundtrip_exact_claims (username : String) (user_id : Int)
    (role : String) (T t0 t : Nat) (h : t < t0 + T) :
    jwt_decode (create_access_token username user_id role T t0) SECRET_KEY t =
      .ok { sub := some username, id := some user_id, role := some role,
            token_type := some "access", exp := t0 + T } ∧
    get_current_user (create_access_token username user_id role T t0) t =
      .ok { username := username, id := user_id, user_role := some role } := by
  constructor
  · simp [jwt_decode, create_access_token, Nat.not_le.mpr h]
  · simp [get_current_user, jwt_decode, create_access_token, Nat.not_le.mpr h]

/-- C4 at a concrete input. -/
theorem C4_witness :
    jwt_decode (create_access_token "alice" 1 "admin" 1800 0) SECRET_KEY 10 =
      .ok { sub := some "alice", id := some 1, role := some "admin",
            token_type := some "access", exp := 0 + 1800 } ∧
    get_current_user (create_access_token "alice" 1 "admin" 1800 0) 10 =
      .ok { username := "alice", id := 1, user_role := some "admin" } :=
  C4_roundtrip_exact_claims "alice" 1 "admin" 1800 0 10 (by decide)

/-- C5: when the presented refresh token verifies and its embedded id matches
a stored row, the refresh endpoint returns a response computed solely from the
stored row and the current time: the new access token carries the row's
current stored role, the new refresh token expires a fresh 7 days (604800 s)
from now, and neither is copied from the presented token. -/
theorem C5_refresh_recomputed_from_store (tok : Jwt) (db : List Users)
    (now : Nat) (td : RefreshTokenData) (user : Users)
    (hv : verify_refresh_token tok now = .ok td)
    (hu : firstUserById db td.id = some user) :
    refresh_access_token tok db now =
      (db, .ok
        { access_token := create_access_token user.username user.id user.role 1800 now
          refresh_token := create_refresh_token user.username user.id now
          token_type := "bearer" }) ∧
    (create_access_token user.username user.id user.role 1800 now).payload.role =
      some user.role ∧
    (create_refresh_token user.username user.id now).payload.exp = now + 604800 := by
  refine ⟨?_, rfl, rfl⟩
  simp [refresh_access_token, hv, hu]

/-- C5 at a concrete input: a refresh token issued at time 0 for user id 1,
presented at time 10 against a store in which that user's current role is
"admin". -/
theorem C5_witness :
    refresh_access_token (create_refresh_token "alice" 1 0) [sampleAdmin] 10 =
      ([sampleAdmin], .ok
        { access_token := create_access_token "alice" 1 "admin" 1800 10
          refresh_token := create_refresh_token "alice" 1 10
          token_type := "bearer" }) ∧
    (create_access_token "alice" 1 "admin" 1800 10).payload.role = some "admin" ∧
    (create_refresh_token "alice" 1 10).payload.exp = 10 + 604800 :=
  C5_refresh_recomputed_from_store (create_refresh_token "alice" 1 0)
    [sampleAdmin] 10 { username := "alice", id := 1 } sampleAdmin
    rfl rfl

/-- C6: a token that decodes successfully (right key, unexpired) but whose
payload is missing the `sub` claim or missing the `id` claim is rejected by
both `get_current_user` and `verify_refresh_token` with a 401, never answered
with a defaulted result. -/
theorem C6_missing_sub_or_id_hard_failure (p : Payload) (now : Nat)
    (hexp : now < p.exp) (hmiss : p.sub = none ∨ p.id = none) :
    (∃ e, get_current_user { payload := p, key := SECRET_KEY } now = .error e ∧
          e.status_code = 401) ∧
    (∃ e, verify_refresh_token { payload := p, key := SECRET_KEY } now = .error e ∧
          e.status_code = 401) := by
  have hdec : jwt_decode { payload := p, key := SECRET_KEY } SECRET_KEY now = .ok p := by
    simp [jwt_decode, Nat.not_le.mpr hexp]
  obtain ⟨sub, id, role, tt, expv⟩ := p
  constructor
  · refine ⟨{ status_code := 401, detail := "Could not validate credentials." },
      ?_, rfl⟩
    rcases hmiss with hs | hi
    · subst hs
      simp [get_current_user, hdec]
    · subst hi
      cases sub <;> simp [get_current_user, hdec]
  · by_cases ht : tt = some "refresh"
    · subst ht
      refine ⟨{ status_code := 401, detail := "Could not validate credentials." },
        ?_, rfl⟩
      rcases hmiss with hs | hi
      · subst hs
        simp [verify_refresh_token, hdec]
      · subst hi
        cases sub <;> simp [verify_refresh_token, hdec]
    · exact ⟨{ status_code := 401, detail := "Invalid token type." },
        by simp [verify_refresh_token, hdec, ht], rfl⟩

/-- C6 at a concrete input: an unexpired, well-signed payload with an `id`
but no `sub` claim. -/
theorem C6_witness :
    (∃ e, get_current_user
        { payload := { sub := none, id := some 1, role := some "admin",
                       token_type := some "refresh", exp := 100 },
          key := SECRET_KEY } 10 = .error e ∧ e.status_code = 401) ∧
    (∃ e, verify_refresh_token
        { payload := { sub := none, id := some 1, role := some "admin",
                       token_type := some "refresh", exp := 100 },
          key := SECRET_KEY } 10 = .error e ∧ e.status_code = 401) :=
  C6_missing_sub_or_id_hard_failure
    { sub := none, id := some 1, role := some "admin",
      token_type := some "refresh", exp := 100 }
    10 (by decide) (Or.inl rfl)

/-- C7: every failing request at the auth boundary is rejected with no partial
effects — the database component of the result is the unchanged input list and
the result carries an `HTTPException` instead of any token: credential
mismatch at login (401), invalid refresh token at the refresh endpoint (the
verifier's error is re-raised), and a non-success provider status at either
leg of the OAuth callback (400). -/
theorem C7_failures_have_no_partial_effects
    (verify : String → String → Bool) (username password : String)
    (db : List Users) (now : Nat) (tok : Jwt) (e : HTTPException)
    (tr tr2 : TokenExchangeResponse) (ur : UserinfoResponse)
    (hex_suffix : String) (new_id : Int)
    (ha : authenticate_user verify username password db = none)
    (hb : verify_refresh_token tok now = .error e)
    (hc : tr.status_code ≠ 200)
    (hd : tr2.status_code = 200) (he : ur.status_code ≠ 200) :
    login_for_access_token verify username password db now =
      (db, .error { status_code := 401, detail := "Could not validate credentials." }) ∧
    refresh_access_token tok db now = (db, .error e) ∧
    google_callback tr ur db hex_suffix new_id now =
      (db, .error { status_code := 400
                    detail := "Failed to obtain access token from Google." }) ∧
    google_callback tr2 ur db hex_suffix new_id now =
      (db, .error { status_code := 400
                    detail := "Failed to obtain user info from Google." }) := by
  refine ⟨?_, ?_, ?_, ?_⟩
  · simp [login_for_access_token, ha]
  · simp [refresh_access_token, hb]
  · simp [google_callback, hc]
  · simp [google_callback, hd, he]

/-- C7 at concrete inputs: an empty store (so login fails), a token signed
with the wrong key (so refresh fails), and provider responses with status 500
on each leg. -/
theorem C7_witness :
    login_for_access_token (fun p h => p == h) "alice" "pw" [] 0 =
      ([], .error { status_code := 401, detail := "Could not validate credentials." }) ∧
    refresh_access_token { payload := { exp := 100 }, key := "other" } [] 0 =
      ([], .error { status_code := 401, detail := "Could not validate refresh token." }) ∧
    google_callback { status_code := 500, access_token := none }
        { status_code := 500, email := "bob@example.com" } [] "abcd" 2 0 =
      ([], .error { status_code := 400
                    detail := "Failed to obtain access token from Google." }) ∧
    google_callback { status_code := 200, access_token := some "gt" }
        { status_code := 500, email := "bob@example.com" } [] "abcd" 2 0 =
      ([], .error { status_code := 400
                    detail := "Failed to obtain user info from Google." }) :=
  C7_failures_have_no_partial_effects (fun p h => p == h) "alice" "pw" [] 0
    { payload := { exp := 100 }, key := "other" }
    { status_code := 401, detail := "Could not validate refresh token." }
    { status_code := 500, access_token := none }
    { status_code := 200, access_token := some "gt" }
    { status_code := 500, email := "bob@example.com" }
    "abcd" 2 rfl rfl (by decide) rfl (by decide)

/-- C8: on a successful OAuth callback whose provider email matches no stored
user, exactly one new row is appended whose username is the email's local part
joined by an underscore to the random hex suffix, whose hashed password is the
empty string and whose role is "user"; the access and refresh tokens for that
row are delivered as http-only, lax same-site cookies with max-age 1800 s and
604800 s respectively. -/
theorem C8_oauth_new_user_and_cookies (tr : TokenExchangeResponse)
    (ur : UserinfoResponse) (db : List Users) (hex_suffix : String)
    (new_id : Int) (now : Nat)
    (h1 : tr.status_code = 200) (h2 : ur.status_code = 200)
    (h3 : firstUserByEmail db ur.email = none) :
    ∃ user : Users,
      google_callback tr ur db hex_suffix new_id now =
        (db ++ [user], .ok
          { access_cookie :=
              { key := "access_token"
                value := create_access_token user.username user.id user.role 1800 now
                httponly := true, samesite := "lax", max_age := 1800 }
            refresh_cookie :=
              { key := "refresh_token"
                value := create_refresh_token user.username user.id now
                httponly := true, samesite := "lax", max_age := 604800 } }) ∧
      user.username = emailLocalPart ur.email ++ "_" ++ hex_suffix ∧
      user.hashed_password = "" ∧
      user.role = "user" := by
  refine ⟨{ id := new_id
            email := ur.email
            username := emailLocalPart ur.email ++ "_" ++ hex_suffix
            first_name := ur.given_name.getD ""
            last_name := ur.family_name.getD ""
            hashed_password := ""
            is_active := true
            role := "user" }, ?_, rfl, rfl, rfl⟩
  simp [google_callback, h1, h2, h3]

/-- C8 at a concrete input: provider email "bob@example.com" against an empty
store, hex suffix "a1b2c3d4". -/
theorem C8_witness :
    ∃ user : Users,
      google_callback { status_code := 200, access_token := some "gt" }
          { status_code := 200, email := "bob@example.com" } [] "a1b2c3d4" 7 0 =
        ([] ++ [user], .ok
          { access_cookie :=
              { key := "access_token"
                value := create_access_token user.username user.id user.role 1800 0
                httponly := true, samesite := "lax", max_age := 1800 }
            refresh_cookie :=
              { key := "refresh_token"
                value := create_refresh_token user.username user.id 0
                httponly := true, samesite := "lax", max_age := 604800 } }) ∧
      user.username = emailLocalPart "bob@example.com" ++ "_" ++ "a1b2c3d4" ∧
      user.hashed_password = "" ∧
      user.role = "user" :=
  C8_oauth_new_user_and_cookies { status_code := 200, access_token := some "gt" }
    { status_code := 200, email := "bob@example.com" } [] "a1b2c3d4" 7 0
    rfl rfl rfl

/-- C9: a well-signed, unexpired token carrying `sub` and `id` but no `role`
claim is accepted by `get_current_user`, which returns the absent role as
`none` rather than failing: the role claim is never required for acceptance. -/
theorem C9_role_claim_never_required (username : String) (user_id : Int)
    (tt : Option String) (expv now : Nat) (h : now < expv) :
    get_current_user
      { payload := { sub := some username, id := some user_id, role := none,
                     token_type := tt, exp := expv },
        key := SECRET_KEY } now =
      .ok { username := username, id := user_id, user_role := none } := by
  simp [get_current_user, jwt_decode, Nat.not_le.mpr h]

/-- C9 at a concrete input: a role-less refresh-shaped token accepted with a
`none` role. -/
theorem C9_witness :
    get_current_user
      { payload := { sub := some "alice", id := some 1, role := none,
                     token_type := some "refresh", exp := 100 },
        key := SECRET_KEY } 10 =
      .ok { username := "alice", id := 1, user_role := none } :=
  C9_role_claim_never_required "alice" 1 (some "refresh") 100 10 (by decide)

/-- C10: on a successful OAuth callback whose provider email matches a stored
user, the returned store is exactly the input store — no row is inserted and
the matched row (role, hashed password, username and all other fields) is
unchanged — and the cookies carry tokens minted for that stored row. -/
theorem C10_oauth_existing_user_frame (tr : TokenExchangeResponse)
    (ur : UserinfoResponse) (db : List Users) (hex_suffix : String)
    (new_id : Int) (now : Nat) (user : Users)
    (h1 : tr.status_code = 200) (h2 : ur.status_code = 200)
    (h3 : firstUserByEmail db ur.email = some user) :
    google_callback tr ur db hex_suffix new_id now =
      (db, .ok
        { access_cookie :=
            { key := "access_token"
              value := create_access_token user.username user.id user.role 1800 now
              httponly := true, samesite := "lax", max_age := 1800 }
          refresh_cookie :=
            { key := "refresh_token"
              value := create_refresh_token user.username user.id now
              httponly := true, samesite := "lax", max_age := 604800 } }) := by
  simp [google_callback, h1, h2, h3]

/-- C10 at a concrete input: the provider email matches the stored sample row;
the store comes back unchanged and the cookies are minted for that row. -/
theorem C10_witness :
    google_callback { status_code := 200, access_token := some "gt" }
        { status_code := 200, email := "alice@example.com" } [sampleAdmin]
        "a1b2c3d4" 7 0 =
      ([sampleAdmin], .ok
        { access_cookie :=
            { key := "access_token"
              value := create_access_token sampleAdmin.username sampleAdmin.id
                         sampleAdmin.role 1800 0
              httponly := true, samesite := "lax", max_age := 1800 }
          refresh_cookie :=
            { key := "refresh_token"
              value := create_refresh_token sampleAdmin.username sampleAdmin.id 0
              httponly := true, samesite := "lax", max_age := 604800 } }) :=
  C10_oauth_existing_user_frame { status_code := 200, access_token := some "gt" }
    { status_code := 200, email := "alice@example.com" } [sampleAdmin]
    "a1b2c3d4" 7 0 sampleAdmin rfl rfl rfl
